import Mathlib

set_option maxRecDepth 40000
set_option maxHeartbeats 1000000

/-!
Verification of the digest-authentication core of the BrightSign DWS client.

The definitions below are a shallow embedding of the Go source:
`md5Hash`, `parseDigestAuth`, `createDigestAuthHeader` and the
401-retry dispatcher `doRequestWithBody` (duplicated in the repository
in the library client and the file-transfer client `UploadFile`).
Machine integers are modelled as `Nat` with explicit reduction mod 2^32;
the process-wide random cnonce source is modelled as an explicit `Nat`
argument; the HTTP transport is modelled by passing in the server
first and second responses and recording the transcript of requests
actually sent.
-/

namespace Bscli

/-- Reduce to a 32-bit word, as uint32 arithmetic in Go does. -/
def w32 (n : Nat) : Nat := n % 4294967296

/-- Left-rotation of a 32-bit word (argument assumed < 2^32). -/
def rotl32 (x n : Nat) : Nat := ((x <<< n) % 4294967296) ||| (x >>> (32 - n))

/-- Round function F of MD5 (RFC 1321). -/
def md5F (b c d : Nat) : Nat := (b &&& c) ||| ((b ^^^ 4294967295) &&& d)

/-- Round function G of MD5. -/
def md5G (b c d : Nat) : Nat := (d &&& b) ||| ((d ^^^ 4294967295) &&& c)

/-- Round function H of MD5. -/
def md5H (b c d : Nat) : Nat := b ^^^ c ^^^ d

/-- Round function I of MD5. -/
def md5I (b c d : Nat) : Nat := c ^^^ (b ||| (d ^^^ 4294967295))

/-- The 64 sine-derived constants K of MD5. -/
def md5K : List Nat :=
  [0xd76aa478, 0xe8c7b756, 0x242070db, 0xc1bdceee,
   0xf57c0faf, 0x4787c62a, 0xa8304613, 0xfd469501,
   0x698098d8, 0x8b44f7af, 0xffff5bb1, 0x895cd7be,
   0x6b901122, 0xfd987193, 0xa679438e, 0x49b40821,
   0xf61e2562, 0xc040b340, 0x265e5a51, 0xe9b6c7aa,
   0xd62f105d, 0x02441453, 0xd8a1e681, 0xe7d3fbc8,
   0x21e1cde6, 0xc33707d6, 0xf4d50d87, 0x455a14ed,
   0xa9e3e905, 0xfcefa3f8, 0x676f02d9, 0x8d2a4c8a,
   0xfffa3942, 0x8771f681, 0x6d9d6122, 0xfde5380c,
   0xa4beea44, 0x4bdecfa9, 0xf6bb4b60, 0xbebfbc70,
   0x289b7ec6, 0xeaa127fa, 0xd4ef3085, 0x04881d05,
   0xd9d4d039, 0xe6db99e5, 0x1fa27cf8, 0xc4ac5665,
   0xf4292244, 0x432aff97, 0xab9423a7, 0xfc93a039,
   0x655b59c3, 0x8f0ccc92, 0xffeff47d, 0x85845dd1,
   0x6fa87e4f, 0xfe2ce6e0, 0xa3014314, 0x4e0811a1,
   0xf7537e82, 0xbd3af235, 0x2ad7d2bb, 0xeb86d391]

/-- The 64 per-round rotation amounts of MD5. -/
def md5S : List Nat :=
  [7, 12, 17, 22, 7, 12, 17, 22, 7, 12, 17, 22, 7, 12, 17, 22,
   5, 9, 14, 20, 5, 9, 14, 20, 5, 9, 14, 20, 5, 9, 14, 20,
   4, 11, 16, 23, 4, 11, 16, 23, 4, 11, 16, 23, 4, 11, 16, 23,
   6, 10, 15, 21, 6, 10, 15, 21, 6, 10, 15, 21, 6, 10, 15, 21]

/-- One of the 64 MD5 round steps: state is (A, B, C, D), `m` the
sixteen 32-bit message words of the current block, `i` the round index. -/
def md5Step (m : List Nat) (st : Nat × Nat × Nat × Nat) (i : Nat) :
    Nat × Nat × Nat × Nat :=
  let a := st.1
  let b := st.2.1
  let c := st.2.2.1
  let d := st.2.2.2
  let fg : Nat × Nat :=
    if i < 16 then (md5F b c d, i)
    else if i < 32 then (md5G b c d, (5 * i + 1) % 16)
    else if i < 48 then (md5H b c d, (3 * i + 5) % 16)
    else (md5I b c d, (7 * i) % 16)
  let f := w32 (fg.1 + a + md5K.getD i 0 + m.getD fg.2 0)
  (d, w32 (b + rotl32 f (md5S.getD i 0)), b, c)

/-- Process one 512-bit block (sixteen 32-bit words) of MD5. -/
def md5Block (st : Nat × Nat × Nat × Nat) (m : List Nat) :
    Nat × Nat × Nat × Nat :=
  let r := (List.range 64).foldl (md5Step m) st
  (w32 (st.1 + r.1), w32 (st.2.1 + r.2.1),
   w32 (st.2.2.1 + r.2.2.1), w32 (st.2.2.2 + r.2.2.2))

/-- Run `n` MD5 block iterations over the word list `ws`, sixteen
words at a time. -/
def md5Loop : Nat → (Nat × Nat × Nat × Nat) → List Nat →
    Nat × Nat × Nat × Nat
  | 0, st, _ => st
  | n + 1, st, ws => md5Loop n (md5Block st (ws.take 16)) (ws.drop 16)

/-- Group a byte list into 32-bit little-endian words. -/
def toWords : List Nat → List Nat
  | b0 :: b1 :: b2 :: b3 :: rest =>
    (b0 + 256 * (b1 + 256 * (b2 + 256 * b3))) :: toWords rest
  | _ => []

/-- A 64-bit value as eight little-endian bytes. -/
def toLE8 (n : Nat) : List Nat :=
  (List.range 8).map (fun i => (n >>> (8 * i)) % 256)

/-- MD5 padding: append 0x80, zero bytes to 56 mod 64, then the bit
length as a 64-bit little-endian quantity. -/
def md5Pad (msg : List Nat) : List Nat :=
  let len := msg.length
  let padZeros := (119 - len % 64) % 64
  msg ++ [0x80] ++ List.replicate padZeros 0 ++ toLE8 ((len * 8) % 18446744073709551616)

/-- A 32-bit word as four little-endian bytes. -/
def wordToLEBytes (w : Nat) : List Nat :=
  [w % 256, w / 256 % 256, w / 65536 % 256, w / 16777216 % 256]

/-- The 16-byte MD5 digest of a byte list (RFC 1321), as the Go library
`crypto/md5.Sum` computes it. -/
def md5Bytes (msg : List Nat) : List Nat :=
  let padded := md5Pad msg
  let ws := toWords padded
  let r := md5Loop (ws.length / 16)
    (0x67452301, 0xefcdab89, 0x98badcfe, 0x10325476) ws
  wordToLEBytes r.1 ++ wordToLEBytes r.2.1 ++
    wordToLEBytes r.2.2.1 ++ wordToLEBytes r.2.2.2

/-- Lowercase hexadecimal digit for a value below 16. -/
def hexDigit (n : Nat) : Char :=
  if n < 10 then Char.ofNat (48 + n) else Char.ofNat (87 + n)

/-- Render a byte as two lowercase hex digits. -/
def byteToHex (b : Nat) : List Char :=
  [hexDigit (b / 16 % 16), hexDigit (b % 16)]

/-- Render a byte list as lowercase hex, as the Go library fmt %x does for a
byte array. -/
def bytesToHex (bs : List Nat) : String :=
  String.mk ((bs.map byteToHex).flatten)

/-- UTF-8 encoding of one character, as the Go library []byte(string) produces. -/
def utf8Bytes (c : Char) : List Nat :=
  let n := c.toNat
  if n < 0x80 then [n]
  else if n < 0x800 then
    [0xC0 ||| (n >>> 6), 0x80 ||| (n &&& 0x3F)]
  else if n < 0x10000 then
    [0xE0 ||| (n >>> 12), 0x80 ||| ((n >>> 6) &&& 0x3F), 0x80 ||| (n &&& 0x3F)]
  else
    [0xF0 ||| (n >>> 18), 0x80 ||| ((n >>> 12) &&& 0x3F),
     0x80 ||| ((n >>> 6) &&& 0x3F), 0x80 ||| (n &&& 0x3F)]

/-- The UTF-8 bytes of a string. -/
def strBytes (s : String) : List Nat :=
  (s.data.map utf8Bytes).flatten

/-- Embedding of the Go function `md5Hash`: the MD5 digest of the
string bytes rendered as lowercase hex. -/
def md5Hash (text : String) : String :=
  bytesToHex (md5Bytes (strBytes text))

/-! Challenge parsing (`parseDigestAuth` in the source).
The Go map[string]string is modelled as an insertion-ordered
association list with overwrite-on-insert, looked up with the
Go zero-value default "". -/

/-- Challenge parameter map: insertion-ordered association list. -/
abbrev Params := List (String × String)

/-- Go map indexing `params[key]`: the stored value, or "" when the
key is absent. -/
def getParam (ps : Params) (k : String) : String :=
  match ps.find? (fun p => p.1 == k) with
  | some p => p.2
  | none => ""

/-- Whether a key is present in the map. -/
def hasParam (ps : Params) (k : String) : Bool :=
  (ps.find? (fun p => p.1 == k)).isSome

/-- Go map assignment `params[key] = value`: overwrite if present,
append otherwise. -/
def insertParam (ps : Params) (k v : String) : Params :=
  if ps.any (fun p => p.1 == k) then
    ps.map (fun p => if p.1 == k then (k, v) else p)
  else ps ++ [(k, v)]

/-- The ASCII whitespace recognised by strings.TrimSpace. -/
def isSpaceChar (c : Char) : Bool :=
  c == ' ' || c == '\t' || c == '\n' || c == '\x0b' || c == '\x0c' || c == '\r'

/-- Drop trailing characters satisfying `p`. -/
def dropEndWhile (p : Char → Bool) (l : List Char) : List Char :=
  (l.reverse.dropWhile p).reverse

/-- strings.TrimSpace on a character list. -/
def trimWS (l : List Char) : List Char :=
  dropEndWhile isSpaceChar (l.dropWhile isSpaceChar)

/-- strings.Trim with cutset consisting of the double quote: remove
all leading and trailing quote characters. -/
def trimQuotes (l : List Char) : List Char :=
  dropEndWhile (fun c => c == '"') (l.dropWhile (fun c => c == '"'))

/-- Split at the first '=' (strings.Index); `none` when there is no
'=' in the list. -/
def splitFirstEq : List Char → Option (List Char × List Char)
  | [] => none
  | c :: cs =>
    if c = '=' then some ([], cs)
    else match splitFirstEq cs with
      | none => none
      | some kv => some (c :: kv.1, kv.2)

/-- Helper for comma splitting, carrying the current segment reversed. -/
def splitCommaAux : List Char → List Char → List (List Char)
  | [], acc => [acc.reverse]
  | c :: cs, acc =>
    if c = ',' then acc.reverse :: splitCommaAux cs []
    else splitCommaAux cs (c :: acc)

/-- strings.Split on "," as the Go source uses it. -/
def splitComma (l : List Char) : List (List Char) :=
  splitCommaAux l []

/-- The loop body of `parseDigestAuth`: trim the segment, split at the
first '=', trim whitespace and surrounding quotes from the value, and
store the pair; a segment with no '=' is skipped. -/
def parsePart (ps : Params) (part : List Char) : Params :=
  let p := trimWS part
  match splitFirstEq p with
  | none => ps
  | some kv =>
    insertParam ps (String.mk (trimWS kv.1)) (String.mk (trimQuotes (trimWS kv.2)))

/-- Parse a comma-separated parameter list into a map. -/
def parseParams (auth : List Char) : Params :=
  (splitComma auth).foldl parsePart []

/-- strings.TrimPrefix on character lists: drop `pre` when it is a
prefix, otherwise return the list unchanged. -/
def dropPref (pre l : List Char) : List Char :=
  if pre.isPrefixOf l then l.drop pre.length else l

/-- Embedding of the Go function `parseDigestAuth`: remove the "Digest "
prefix, split on commas, and collect the key=value pairs. -/
def parseDigestAuth (wwwAuth : String) : Params :=
  parseParams (dropPref "Digest ".data wwwAuth.data)

/-! Digest response and Authorization header
(`createDigestAuthHeader` in the source). The cnonce, drawn in Go
from a freshly seeded process-wide source as rand.Uint32(), is
modelled by the explicit argument `cnonceVal`. -/

/-- fmt.Sprintf %08x: eight lowercase hex digits of the low 32 bits. -/
def hex8 (n : Nat) : String :=
  String.mk ((List.range 8).map (fun i => hexDigit ((n >>> (4 * (7 - i))) % 16)))

/-- The response hash computed inside `createDigestAuthHeader`
(source lines binding ha1, ha2 and response). -/
def digestResponse (username password method uri realm nonce qop : String)
    (cnonceVal : Nat) : String :=
  let cnonce := hex8 cnonceVal
  let nc := "00000001"
  let ha1 := md5Hash (username ++ ":" ++ realm ++ ":" ++ password)
  let ha2 := md5Hash (method ++ ":" ++ uri)
  if qop = "auth" ∨ qop = "auth-int" then
    md5Hash (ha1 ++ ":" ++ nonce ++ ":" ++ nc ++ ":" ++ cnonce ++ ":" ++ qop ++ ":" ++ ha2)
  else
    md5Hash (ha1 ++ ":" ++ nonce ++ ":" ++ ha2)

/-- Embedding of the Go function `createDigestAuthHeader`. -/
def createDigestAuthHeader (username password method uri : String)
    (params : Params) (cnonceVal : Nat) : String :=
  let realm := getParam params "realm"
  let nonce := getParam params "nonce"
  let qop := getParam params "qop"
  let opq := getParam params "opaque"
  let cnonce := hex8 cnonceVal
  let nc := "00000001"
  let response := digestResponse username password method uri realm nonce qop cnonceVal
  let base := "Digest username=\"" ++ username ++ "\", realm=\"" ++ realm ++
    "\", nonce=\"" ++ nonce ++ "\", uri=\"" ++ uri ++
    "\", response=\"" ++ response ++ "\""
  let withQop :=
    if qop ≠ "" then
      base ++ ", qop=" ++ qop ++ ", nc=" ++ nc ++ ", cnonce=\"" ++ cnonce ++ "\""
    else base
  if opq ≠ "" then withQop ++ ", opaque=\"" ++ opq ++ "\"" else withQop

/-! The 401-retry dispatcher (`doRequestWithBody` in the library
client; `UploadFile` repeats the same protocol in the file-transfer
client). The io.Reader body is modelled by `BodySource`, which keeps
the underlying bytes and the read position; the HTTP transport is
modelled by the first and second server responses given as
arguments; the result records the transcript of requests sent and the
outcome. -/

/-- An HTTP response as the dispatcher inspects it: status code and
the WWW-Authenticate header value ("" when the header is absent, as
Header.Get in Go returns). -/
structure HttpResponse where
  statusCode : Nat
  wwwAuth : String
deriving DecidableEq, Repr

/-- The io.Reader passed as request body: nil, a *bytes.Reader, some
other io.Seeker, or a non-seekable reader; readers carry their bytes
and current position. -/
inductive BodySource where
  | noBody
  | bytesReader (bytes : List Nat) (pos : Nat)
  | seekableReader (bytes : List Nat) (pos : Nat)
  | plainReader (bytes : List Nat) (pos : Nat)
deriving DecidableEq, Repr

/-- The bytes a send transmits: everything from the current position,
or `none` for a nil body. -/
def readAllBody : BodySource → Option (List Nat)
  | .noBody => none
  | .bytesReader bs p => some (bs.drop p)
  | .seekableReader bs p => some (bs.drop p)
  | .plainReader bs p => some (bs.drop p)

/-- The reader after a send has consumed it: position at the end. -/
def afterRead : BodySource → BodySource
  | .noBody => .noBody
  | .bytesReader bs _ => .bytesReader bs bs.length
  | .seekableReader bs _ => .seekableReader bs bs.length
  | .plainReader bs _ => .plainReader bs bs.length

/-- The typed failures of the dispatcher (the source returns
fmt.Errorf values; these constructors stand for the two error
messages of the 401 path). -/
inductive DwsError where
  | authSchemeUnsupported (wwwAuth : String)
  | bodyNotReplayable
deriving DecidableEq, Repr

/-- The body-replay step of the source (lines choosing newBody): nil
stays nil, an io.Seeker or *bytes.Reader is rewound to the start, any
other non-nil reader makes the dispatch fail. -/
def replayBody : BodySource → Except DwsError BodySource
  | .noBody => .ok .noBody
  | .seekableReader bs _ => .ok (.seekableReader bs 0)
  | .bytesReader bs _ => .ok (.bytesReader bs 0)
  | .plainReader _ _ => .error .bodyNotReplayable

/-- Whether `replayBody` succeeds on this source. -/
def replayable : BodySource → Bool
  | .plainReader _ _ => false
  | _ => true

/-- An HTTP request as the dispatcher builds it, with the bytes the
send actually transmits. -/
structure Request where
  method : String
  url : String
  contentType : Option String
  authorization : Option String
  bodyBytes : Option (List Nat)
deriving DecidableEq, Repr

/-- Equality of dispatch outcomes is decidable. -/
instance : DecidableEq (Except DwsError HttpResponse) := fun a b =>
  match a, b with
  | .ok x, .ok y =>
    if h : x = y then isTrue (by rw [h]) else isFalse (by intro hc; cases hc; exact h rfl)
  | .error x, .error y =>
    if h : x = y then isTrue (by rw [h]) else isFalse (by intro hc; cases hc; exact h rfl)
  | .ok _, .error _ => isFalse (by intro hc; cases hc)
  | .error _, .ok _ => isFalse (by intro hc; cases hc)

/-- http.NewRequest plus the header-setting lines: Content-Type is
set only when the content type is non-empty and the body non-nil. -/
def mkRequest (method url : String) (body : BodySource) (contentType : String)
    (auth : Option String) : Request :=
  { method := method
    url := url
    contentType :=
      if contentType ≠ "" ∧ body ≠ BodySource.noBody then some contentType else none
    authorization := auth
    bodyBytes := readAllBody body }

/-- URL.RequestURI for the plain http URLs the client builds: drop
the scheme, then keep everything from the first '/' of the remainder. -/
def requestURI (url : String) : String :=
  let rest :=
    if "http://".data.isPrefixOf url.data then url.data.drop 7
    else if "https://".data.isPrefixOf url.data then url.data.drop 8
    else url.data
  String.mk (rest.dropWhile (fun c => c != '/'))

/-- Embedding of the Go function `doRequestWithBody`: send once without
authentication; on a 401 check the Digest prefix, parse the
challenge, rewind the body, build a fresh request with the
Authorization header for the same method and request URI, and send
exactly once more, returning the second response whatever it is; any
other first status is returned unchanged. -/
def doRequestWithBody (username password method url : String)
    (body : BodySource) (contentType : String) (cnonceVal : Nat)
    (resp1 resp2 : HttpResponse) :
    List Request × Except DwsError HttpResponse :=
  let req1 := mkRequest method url body contentType none
  if resp1.statusCode = 401 then
    if "Digest".data.isPrefixOf resp1.wwwAuth.data then
      let authParams := parseDigestAuth resp1.wwwAuth
      match replayBody (afterRead body) with
      | .error e => ([req1], .error e)
      | .ok newBody =>
        let authHeader :=
          createDigestAuthHeader username password method (requestURI url)
            authParams cnonceVal
        let req2 := mkRequest method url newBody contentType (some authHeader)
        ([req1, req2], .ok resp2)
    else ([req1], .error (.authSchemeUnsupported resp1.wwwAuth))
  else ([req1], .ok resp1)

/-- Embedding of the 401-retry protocol of the file-transfer client function
`UploadFile`: the multipart body is fully materialised as
`bodyBytes` before the first send, and both attempts send a fresh
bytes.Reader over those same bytes; Content-Type is set on both
requests and the username is fixed to "admin". -/
def uploadFileDispatch (password url : String) (bodyBytes : List Nat)
    (contentType : String) (cnonceVal : Nat) (resp1 resp2 : HttpResponse) :
    List Request × Except DwsError HttpResponse :=
  let req1 : Request :=
    { method := "PUT", url := url, contentType := some contentType
      authorization := none, bodyBytes := some bodyBytes }
  if resp1.statusCode = 401 then
    if "Digest".data.isPrefixOf resp1.wwwAuth.data then
      let authParams := parseDigestAuth resp1.wwwAuth
      let authHeader :=
        createDigestAuthHeader "admin" password "PUT" (requestURI url)
          authParams cnonceVal
      let req2 : Request :=
        { method := "PUT", url := url, contentType := some contentType
          authorization := some authHeader, bodyBytes := some bodyBytes }
      ([req1, req2], .ok resp2)
    else ([req1], .error (.authSchemeUnsupported resp1.wwwAuth))
  else ([req1], .ok resp1)

/-- The Authorization header rendered the way claim C4 words it: the
qop and opaque clauses appear exactly when the corresponding key is
present in the challenge map. This follows the claim text, not the
source, and is compared against `createDigestAuthHeader`. -/
def headerPerPresenceClaim (username password method uri : String)
    (params : Params) (cnonceVal : Nat) : String :=
  let realm := getParam params "realm"
  let nonce := getParam params "nonce"
  let qop := getParam params "qop"
  let opq := getParam params "opaque"
  let cnonce := hex8 cnonceVal
  let nc := "00000001"
  let response := digestResponse username password method uri realm nonce qop cnonceVal
  let base := "Digest username=\"" ++ username ++ "\", realm=\"" ++ realm ++
    "\", nonce=\"" ++ nonce ++ "\", uri=\"" ++ uri ++
    "\", response=\"" ++ response ++ "\""
  let withQop :=
    if hasParam params "qop" then
      base ++ ", qop=" ++ qop ++ ", nc=" ++ nc ++ ", cnonce=\"" ++ cnonce ++ "\""
    else base
  if hasParam params "opaque" then withQop ++ ", opaque=\"" ++ opq ++ "\"" else withQop

/-- Hex digits below 16 render into the lowercase hex alphabet. -/
theorem hexDigit_mem_alphabet :
    ∀ k, k < 16 → hexDigit k ∈ ("0123456789abcdef").data := by
  decide

/-- No '=' in a character list means `splitFirstEq` finds nothing. -/
theorem splitFirstEq_eq_none_of_not_mem :
    ∀ {l : List Char}, '=' ∉ l → splitFirstEq l = none := by
  intro l h
  induction l with
  | nil => rfl
  | cons c cs ih =>
    have hc : ¬ c = '=' := fun hc => h (hc ▸ List.mem_cons_self c cs)
    have hcs : '=' ∉ cs := fun hm => h (List.mem_cons_of_mem c hm)
    simp only [splitFirstEq, if_neg hc, ih hcs]

/-- A list is a Boolean prefix of itself followed by anything. -/
theorem isPrefixOf_append_self :
    ∀ (l m : List Char), l.isPrefixOf (l ++ m) = true
  | [], m => by simp [List.isPrefixOf]
  | c :: cs, m => by
    simp [List.isPrefixOf, isPrefixOf_append_self cs m]

/-- Trimming whitespace only removes characters. -/
theorem mem_of_mem_trimWS {c : Char} {l : List Char} :
    c ∈ trimWS l → c ∈ l := by
  intro h
  unfold trimWS dropEndWhile at h
  have h1 := (List.dropWhile_sublist _ ).subset (List.mem_reverse.mp h)
  have h2 := (List.dropWhile_sublist (p := isSpaceChar) (l := l)).subset
    (List.mem_reverse.mp h1)
  exact h2

end Bscli

namespace Bscli

/-- Claim C1: for every username, password, method, uri and parsed
challenge, when the challenge qop is "auth" or "auth-int" the digest
response is MD5(HA1:nonce:nc:cnonce:qop:HA2) in lowercase hex with
HA1 = MD5(username:realm:password), HA2 = MD5(method:uri),
nc = "00000001" and cnonce the 8-lowercase-hex rendering of a 32-bit
value, and otherwise it is MD5(HA1:nonce:HA2); MD5("test") renders as
"098f6bcd4621d373cade4e832627b4f6", and the golden inputs with fixed
cnonce determine the output completely. -/
theorem digest_response_formula :
    (∀ (u p m uri : String) (ps : Params) (cn : Nat),
      digestResponse u p m uri (getParam ps "realm") (getParam ps "nonce")
          (getParam ps "qop") cn =
        if getParam ps "qop" = "auth" ∨ getParam ps "qop" = "auth-int" then
          md5Hash (md5Hash (u ++ ":" ++ getParam ps "realm" ++ ":" ++ p) ++ ":" ++
            getParam ps "nonce" ++ ":" ++ "00000001" ++ ":" ++ hex8 cn ++ ":" ++
            getParam ps "qop" ++ ":" ++ md5Hash (m ++ ":" ++ uri))
        else
          md5Hash (md5Hash (u ++ ":" ++ getParam ps "realm" ++ ":" ++ p) ++ ":" ++
            getParam ps "nonce" ++ ":" ++ md5Hash (m ++ ":" ++ uri)))
    ∧ (∀ cn : Nat, (hex8 cn).length = 8 ∧
        ∀ c ∈ (hex8 cn).data, c ∈ ("0123456789abcdef").data)
    ∧ md5Hash "test" = "098f6bcd4621d373cade4e832627b4f6"
    ∧ createDigestAuthHeader "admin" "password" "GET" "/api/v1/info/"
        (parseDigestAuth "Digest realm=\"BrightSign\", nonce=\"abc123\", qop=\"auth\"") 0 =
      "Digest username=\"admin\", realm=\"BrightSign\", nonce=\"abc123\", uri=\"/api/v1/info/\", response=\"330aa495eed627f012758c9d9af2fd28\", qop=auth, nc=00000001, cnonce=\"00000000\"" := by
  refine ⟨fun u p m uri ps cn => rfl, fun cn => ⟨?_, ?_⟩, by decide, by decide⟩
  · simp [hex8, String.length]
  · intro c hc
    simp only [hex8, String.data] at hc
    obtain ⟨i, _, rfl⟩ := List.mem_map.mp hc
    exact hexDigit_mem_alphabet _ (Nat.mod_lt _ (by decide))

/-- Witness for C1: the cnonce alphabet fact applied at the concrete
cnonce value 0 and digit '0'. -/
theorem digest_response_formula_witness :
    '0' ∈ ("0123456789abcdef").data :=
  (digest_response_formula.2.1 0).2 '0' (by decide)

/-- Claim C5: the challenge parser strips the "Digest " prefix and
parses the remaining comma-separated key=value list, and the
four-parameter example parses to exactly the expected map. -/
theorem parse_digest_auth_spec :
    (∀ rest : String, parseDigestAuth ("Digest " ++ rest) = parseParams rest.data)
    ∧ parseDigestAuth
        "Digest realm=\"BrightSign\", nonce=\"abc123\", qop=\"auth\", opaque=\"xyz789\"" =
      [("realm", "BrightSign"), ("nonce", "abc123"), ("qop", "auth"), ("opaque", "xyz789")] := by
  refine ⟨fun rest => ?_, by decide⟩
  unfold parseDigestAuth dropPref
  rw [String.data_append]
  rw [if_pos (isPrefixOf_append_self "Digest ".data rest.data), List.drop_left]

/-- Claim C10: the challenge parser is total and lenient: every input,
with or without the "Digest " prefix, yields a (possibly empty) map,
and a comma-separated segment with no '=' is silently skipped. -/
theorem parser_total_and_lenient :
    (∀ (ps : Params) (part : List Char), '=' ∉ part → parsePart ps part = ps)
    ∧ parseDigestAuth "" = []
    ∧ parseDigestAuth "Basic realm=\"x\"" = [("Basic realm", "x")]
    ∧ parseDigestAuth "Digest realm=\"r\", garbage" = [("realm", "r")] := by
  refine ⟨?_, by decide, by decide, by decide⟩
  intro ps part h
  have hs : splitFirstEq (trimWS part) = none :=
    splitFirstEq_eq_none_of_not_mem (fun hc => h (mem_of_mem_trimWS hc))
  simp [parsePart, hs]

/-- Witness for C10: a segment with no '=' is skipped at a concrete
input. -/
theorem parser_total_and_lenient_witness :
    parsePart [] ("g").data = [] :=
  parser_total_and_lenient.1 [] ("g").data (by decide)

/-- Counterexample to C4 as stated: a challenge carrying qop with an
empty value has qop present, yet the produced header omits the qop
clause, so the header is not the presence-conditioned rendering the
claim describes. -/
theorem auth_header_presence_cex :
    hasParam [("realm", "r"), ("nonce", "n"), ("qop", "")] "qop" = true ∧
    createDigestAuthHeader "u" "p" "GET" "/x"
        [("realm", "r"), ("nonce", "n"), ("qop", "")] 0 ≠
      headerPerPresenceClaim "u" "p" "GET" "/x"
        [("realm", "r"), ("nonce", "n"), ("qop", "")] 0 := by
  decide

/-- Claim C4 (amended): the header is the base
Digest username/realm/nonce/uri/response rendering, followed by the
qop, nc, cnonce clause exactly when the challenge qop value is
non-empty, followed by the opaque clause exactly when the opaque
value is non-empty (a key stored with an empty value is
indistinguishable from an absent key in the Go map lookup). -/
theorem auth_header_format :
    ∀ (u p m uri : String) (ps : Params) (cn : Nat),
      (getParam ps "qop" = "" → getParam ps "opaque" = "" →
        createDigestAuthHeader u p m uri ps cn =
          "Digest username=\"" ++ u ++ "\", realm=\"" ++ getParam ps "realm" ++
            "\", nonce=\"" ++ getParam ps "nonce" ++ "\", uri=\"" ++ uri ++
            "\", response=\"" ++
            digestResponse u p m uri (getParam ps "realm") (getParam ps "nonce")
              (getParam ps "qop") cn ++ "\"")
      ∧ (getParam ps "qop" ≠ "" → getParam ps "opaque" = "" →
        createDigestAuthHeader u p m uri ps cn =
          "Digest username=\"" ++ u ++ "\", realm=\"" ++ getParam ps "realm" ++
            "\", nonce=\"" ++ getParam ps "nonce" ++ "\", uri=\"" ++ uri ++
            "\", response=\"" ++
            digestResponse u p m uri (getParam ps "realm") (getParam ps "nonce")
              (getParam ps "qop") cn ++ "\"" ++
            ", qop=" ++ getParam ps "qop" ++ ", nc=" ++ "00000001" ++
            ", cnonce=\"" ++ hex8 cn ++ "\"")
      ∧ (getParam ps "qop" = "" → getParam ps "opaque" ≠ "" →
        createDigestAuthHeader u p m uri ps cn =
          "Digest username=\"" ++ u ++ "\", realm=\"" ++ getParam ps "realm" ++
            "\", nonce=\"" ++ getParam ps "nonce" ++ "\", uri=\"" ++ uri ++
            "\", response=\"" ++
            digestResponse u p m uri (getParam ps "realm") (getParam ps "nonce")
              (getParam ps "qop") cn ++ "\"" ++
            ", opaque=\"" ++ getParam ps "opaque" ++ "\"")
      ∧ (getParam ps "qop" ≠ "" → getParam ps "opaque" ≠ "" →
        createDigestAuthHeader u p m uri ps cn =
          "Digest username=\"" ++ u ++ "\", realm=\"" ++ getParam ps "realm" ++
            "\", nonce=\"" ++ getParam ps "nonce" ++ "\", uri=\"" ++ uri ++
            "\", response=\"" ++
            digestResponse u p m uri (getParam ps "realm") (getParam ps "nonce")
              (getParam ps "qop") cn ++ "\"" ++
            ", qop=" ++ getParam ps "qop" ++ ", nc=" ++ "00000001" ++
            ", cnonce=\"" ++ hex8 cn ++ "\"" ++
            ", opaque=\"" ++ getParam ps "opaque" ++ "\"") := by
  intro u p m uri ps cn
  refine ⟨fun hq ho => ?_, fun hq ho => ?_, fun hq ho => ?_, fun hq ho => ?_⟩ <;>
    simp only [createDigestAuthHeader, hq, ho, ne_eq, not_true_eq_false,
      not_false_eq_true, if_true, if_false, ite_true, ite_false]

/-- Witness for C4 (amended): the full qop and opaque rendering at a
concrete challenge. -/
theorem auth_header_format_witness :
    createDigestAuthHeader "admin" "pw" "GET" "/a"
        [("realm", "r"), ("nonce", "n"), ("qop", "auth"), ("opaque", "z")] 7 =
      "Digest username=\"" ++ "admin" ++ "\", realm=\"" ++
        getParam [("realm", "r"), ("nonce", "n"), ("qop", "auth"), ("opaque", "z")] "realm" ++
        "\", nonce=\"" ++
        getParam [("realm", "r"), ("nonce", "n"), ("qop", "auth"), ("opaque", "z")] "nonce" ++
        "\", uri=\"" ++ "/a" ++ "\", response=\"" ++
        digestResponse "admin" "pw" "GET" "/a"
          (getParam [("realm", "r"), ("nonce", "n"), ("qop", "auth"), ("opaque", "z")] "realm")
          (getParam [("realm", "r"), ("nonce", "n"), ("qop", "auth"), ("opaque", "z")] "nonce")
          (getParam [("realm", "r"), ("nonce", "n"), ("qop", "auth"), ("opaque", "z")] "qop") 7 ++
        "\"" ++ ", qop=" ++
        getParam [("realm", "r"), ("nonce", "n"), ("qop", "auth"), ("opaque", "z")] "qop" ++
        ", nc=" ++ "00000001" ++ ", cnonce=\"" ++ hex8 7 ++ "\"" ++ ", opaque=\"" ++
        getParam [("realm", "r"), ("nonce", "n"), ("qop", "auth"), ("opaque", "z")] "opaque" ++
        "\"" :=
  (auth_header_format "admin" "pw" "GET" "/a"
    [("realm", "r"), ("nonce", "n"), ("qop", "auth"), ("opaque", "z")] 7).2.2.2
    (by decide) (by decide)

/-- Counterexample to C2 as stated: a first-attempt 401 whose
WWW-Authenticate header is a Basic challenge produces no retry at
all — only one request is sent and an error, not the second server
response, comes back — so it is not the case that every first-attempt
401 is followed by exactly one retry whose response is returned. -/
theorem dispatch_retry_cex :
    (HttpResponse.mk 401 "Basic realm=\"x\"").statusCode = 401 ∧
    (doRequestWithBody "u" "p" "GET" "http://h/a" BodySource.noBody "" 0
      (HttpResponse.mk 401 "Basic realm=\"x\"") (HttpResponse.mk 200 "")).1.length = 1 ∧
    (doRequestWithBody "u" "p" "GET" "http://h/a" BodySource.noBody "" 0
      (HttpResponse.mk 401 "Basic realm=\"x\"") (HttpResponse.mk 200 "")).2 ≠
      Except.ok (HttpResponse.mk 200 "") := by
  decide

/-- Claim C2 (amended): a dispatch call issues at most two requests;
a first response other than 401 is returned unchanged after exactly
one round trip; after a first-attempt 401 bearing a Digest-prefixed
challenge and with a replayable body, exactly one retry is sent and
the retry response — whatever its status, including a second 401 —
is returned unchanged, with no further attempt; a first-attempt 401
with a non-Digest challenge or a non-replayable body instead fails
with a single request sent. -/
theorem dispatch_two_state_protocol :
    ∀ (u p m url : String) (body : BodySource) (ct : String) (cn : Nat)
      (r1 r2 : HttpResponse),
      ((doRequestWithBody u p m url body ct cn r1 r2).1.length ≤ 2)
      ∧ (r1.statusCode ≠ 401 →
          doRequestWithBody u p m url body ct cn r1 r2 =
            ([mkRequest m url body ct none], Except.ok r1))
      ∧ (r1.statusCode = 401 →
          "Digest".data.isPrefixOf r1.wwwAuth.data = true →
          replayable body = true →
          (doRequestWithBody u p m url body ct cn r1 r2).1.length = 2 ∧
          (doRequestWithBody u p m url body ct cn r1 r2).2 = Except.ok r2) := by
  intro u p m url body ct cn r1 r2
  refine ⟨?_, ?_, ?_⟩
  · unfold doRequestWithBody
    split
    · split
      · cases replayBody (afterRead body) <;> simp
      · simp
    · simp
  · intro h1
    unfold doRequestWithBody
    rw [if_neg h1]
  · intro h1 h2 h3
    cases body <;>
      simp_all [doRequestWithBody, replayable, afterRead, replayBody]

/-- Witness for C2 (amended): the 401-then-200 exchange at concrete
inputs sends exactly two requests and returns the 200. -/
theorem dispatch_two_state_protocol_witness :
    (doRequestWithBody "u" "p" "GET" "http://h/a" BodySource.noBody "" 0
      (HttpResponse.mk 401 "Digest realm=\"r\", nonce=\"n\"")
      (HttpResponse.mk 200 "")).1.length = 2 :=
  ((dispatch_two_state_protocol "u" "p" "GET" "http://h/a" BodySource.noBody "" 0
    (HttpResponse.mk 401 "Digest realm=\"r\", nonce=\"n\"")
    (HttpResponse.mk 200 "")).2.2 rfl (by decide) rfl).1

/-- Claim C3: the bytes sent on the authenticated retry equal the
bytes sent on the first attempt, for a JSON body held in a fresh
bytes.Reader, for any other seekable body read from the start, and
for the fully materialised multipart upload body. -/
theorem body_replay_roundtrip :
    (∀ (u p m url : String) (B : List Nat) (ct : String) (cn : Nat)
        (r1 r2 : HttpResponse),
      r1.statusCode = 401 → "Digest".data.isPrefixOf r1.wwwAuth.data = true →
      (doRequestWithBody u p m url (BodySource.bytesReader B 0) ct cn r1 r2).1.map
          Request.bodyBytes = [some B, some B])
    ∧ (∀ (u p m url : String) (B : List Nat) (ct : String) (cn : Nat)
        (r1 r2 : HttpResponse),
      r1.statusCode = 401 → "Digest".data.isPrefixOf r1.wwwAuth.data = true →
      (doRequestWithBody u p m url (BodySource.seekableReader B 0) ct cn r1 r2).1.map
          Request.bodyBytes = [some B, some B])
    ∧ (∀ (pw url : String) (B : List Nat) (ct : String) (cn : Nat)
        (r1 r2 : HttpResponse),
      r1.statusCode = 401 → "Digest".data.isPrefixOf r1.wwwAuth.data = true →
      (uploadFileDispatch pw url B ct cn r1 r2).1.map
          Request.bodyBytes = [some B, some B]) := by
  refine ⟨?_, ?_, ?_⟩
  · intro u p m url B ct cn r1 r2 h1 h2
    simp [doRequestWithBody, mkRequest, readAllBody, afterRead, replayBody, h1, h2]
  · intro u p m url B ct cn r1 r2 h1 h2
    simp [doRequestWithBody, mkRequest, readAllBody, afterRead, replayBody, h1, h2]
  · intro pw url B ct cn r1 r2 h1 h2
    simp [uploadFileDispatch, h1, h2]

/-- Witness for C3: a concrete one-byte body is sent identically on
both attempts. -/
theorem body_replay_roundtrip_witness :
    (doRequestWithBody "u" "p" "GET" "http://h/a" (BodySource.bytesReader [7] 0) "" 0
      (HttpResponse.mk 401 "Digest nonce=\"n\"")
      (HttpResponse.mk 200 "")).1.map Request.bodyBytes = [some [7], some [7]] :=
  body_replay_roundtrip.1 "u" "p" "GET" "http://h/a" [7] "" 0
    (HttpResponse.mk 401 "Digest nonce=\"n\"") (HttpResponse.mk 200 "") rfl (by decide)

/-- Counterexample to C6 as stated: with a first-attempt 401 whose
challenge is not Digest-prefixed and a non-replayable body, the
dispatch fails with the unsupported-scheme error, not with
BodyNotReplayable, so the universal error attribution fails. -/
theorem nonreplayable_error_cex :
    (HttpResponse.mk 401 "Basic realm=\"x\"").statusCode = 401 ∧
    replayable (BodySource.plainReader [1] 0) = false ∧
    (doRequestWithBody "u" "p" "GET" "http://h/a" (BodySource.plainReader [1] 0) "" 0
      (HttpResponse.mk 401 "Basic realm=\"x\"") (HttpResponse.mk 200 "")).2 ≠
      Except.error DwsError.bodyNotReplayable := by
  decide

/-- Claim C6 (amended): when the first attempt returns 401 with a
Digest-prefixed challenge and the body is non-replayable, the
dispatch fails with BodyNotReplayable and no second request is built
or sent. -/
theorem nonreplayable_fails_fast :
    ∀ (u p m url : String) (B : List Nat) (pos : Nat) (ct : String) (cn : Nat)
      (r1 r2 : HttpResponse),
      r1.statusCode = 401 → "Digest".data.isPrefixOf r1.wwwAuth.data = true →
      doRequestWithBody u p m url (BodySource.plainReader B pos) ct cn r1 r2 =
        ([mkRequest m url (BodySource.plainReader B pos) ct none],
          Except.error DwsError.bodyNotReplayable) := by
  intro u p m url B pos ct cn r1 r2 h1 h2
  simp [doRequestWithBody, afterRead, replayBody, h1, h2]

/-- Witness for C6 (amended): a concrete non-replayable dispatch. -/
theorem nonreplayable_fails_fast_witness :
    doRequestWithBody "u" "p" "GET" "http://h/a" (BodySource.plainReader [1] 0) "" 0
      (HttpResponse.mk 401 "Digest nonce=\"n\"") (HttpResponse.mk 200 "") =
      ([mkRequest "GET" "http://h/a" (BodySource.plainReader [1] 0) "" none],
        Except.error DwsError.bodyNotReplayable) :=
  nonreplayable_fails_fast "u" "p" "GET" "http://h/a" [1] 0 "" 0
    (HttpResponse.mk 401 "Digest nonce=\"n\"") (HttpResponse.mk 200 "") rfl (by decide)

/-- Counterexample to C7 as stated: a Digest challenge with no realm
parameter does not make the dispatch fail — the code performs no
realm or nonce validation, sends the authenticated retry anyway and
returns its response. -/
theorem challenge_validation_cex :
    hasParam (parseDigestAuth "Digest nonce=\"abc123\"") "realm" = false ∧
    (doRequestWithBody "admin" "pw" "GET" "http://h/api/v1/info/" BodySource.noBody "" 0
      (HttpResponse.mk 401 "Digest nonce=\"abc123\"")
      (HttpResponse.mk 200 "")).1.length = 2 ∧
    (doRequestWithBody "admin" "pw" "GET" "http://h/api/v1/info/" BodySource.noBody "" 0
      (HttpResponse.mk 401 "Digest nonce=\"abc123\"")
      (HttpResponse.mk 200 "")).2 = Except.ok (HttpResponse.mk 200 "") := by
  decide

/-- Claim C7 (amended): the dispatcher validates only the Digest
prefix; any Digest-prefixed 401 challenge — including one missing
realm or nonce — leads to an authenticated retry whose Authorization
header substitutes the empty string for absent fields, and the
retry response is returned. -/
theorem no_challenge_validation :
    ∀ (u p m url ct : String) (cn : Nat) (wa : String) (r2 : HttpResponse),
      "Digest".data.isPrefixOf wa.data = true →
      (doRequestWithBody u p m url BodySource.noBody ct cn
        (HttpResponse.mk 401 wa) r2).1.map Request.authorization =
        [none, some (createDigestAuthHeader u p m (requestURI url)
          (parseDigestAuth wa) cn)] ∧
      (doRequestWithBody u p m url BodySource.noBody ct cn
        (HttpResponse.mk 401 wa) r2).2 = Except.ok r2 := by
  intro u p m url ct cn wa r2 h2
  simp [doRequestWithBody, mkRequest, afterRead, replayBody, h2]

/-- Witness for C7 (amended): the realm-less challenge still yields
the 200 of the retry. -/
theorem no_challenge_validation_witness :
    (doRequestWithBody "admin" "pw" "GET" "http://h/api/v1/info/" BodySource.noBody "" 0
      (HttpResponse.mk 401 "Digest nonce=\"abc123\"")
      (HttpResponse.mk 200 "")).2 = Except.ok (HttpResponse.mk 200 "") :=
  (no_challenge_validation "admin" "pw" "GET" "http://h/api/v1/info/" "" 0
    "Digest nonce=\"abc123\"" (HttpResponse.mk 200 "") (by decide)).2

/-- Claim C8: a first-attempt 401 whose WWW-Authenticate header is
absent (the empty string) or does not begin with "Digest" makes the
dispatch fail with the unsupported-scheme error, and no retry
request is sent. -/
theorem scheme_unsupported_no_retry :
    ∀ (u p m url : String) (body : BodySource) (ct : String) (cn : Nat)
      (wa : String) (r2 : HttpResponse),
      "Digest".data.isPrefixOf wa.data = false →
      doRequestWithBody u p m url body ct cn (HttpResponse.mk 401 wa) r2 =
        ([mkRequest m url body ct none],
          Except.error (DwsError.authSchemeUnsupported wa)) := by
  intro u p m url body ct cn wa r2 h2
  simp [doRequestWithBody, h2]

/-- Witness for C8: the absent-header case at concrete inputs. -/
theorem scheme_unsupported_no_retry_witness :
    doRequestWithBody "u" "p" "GET" "http://h/a" BodySource.noBody "" 0
      (HttpResponse.mk 401 "") (HttpResponse.mk 200 "") =
      ([mkRequest "GET" "http://h/a" BodySource.noBody "" none],
        Except.error (DwsError.authSchemeUnsupported "")) :=
  scheme_unsupported_no_retry "u" "p" "GET" "http://h/a" BodySource.noBody "" 0
    "" (HttpResponse.mk 200 "") (by decide)

/-- Claim C9: the authenticated retry is built with the same method
and URL as the first attempt, and its Authorization header is
computed by `createDigestAuthHeader` from that same method and the
request URI of that same URL (whose HA2 is MD5(method:uri) of exactly
those arguments, as `digestResponse` shows). -/
theorem retry_preserves_method_uri :
    ∀ (u p m url : String) (body : BodySource) (ct : String) (cn : Nat)
      (wa : String) (r2 : HttpResponse),
      "Digest".data.isPrefixOf wa.data = true →
      replayable body = true →
      (doRequestWithBody u p m url body ct cn (HttpResponse.mk 401 wa) r2).1.map
          Request.method = [m, m] ∧
      (doRequestWithBody u p m url body ct cn (HttpResponse.mk 401 wa) r2).1.map
          Request.url = [url, url] ∧
      (doRequestWithBody u p m url body ct cn (HttpResponse.mk 401 wa) r2).1.map
          Request.authorization =
        [none, some (createDigestAuthHeader u p m (requestURI url)
          (parseDigestAuth wa) cn)] := by
  intro u p m url body ct cn wa r2 h2 h3
  cases body <;>
    simp_all [doRequestWithBody, mkRequest, replayable, afterRead, replayBody]

/-- Witness for C9: method and URL preservation at concrete inputs. -/
theorem retry_preserves_method_uri_witness :
    (doRequestWithBody "u" "p" "GET" "http://h/a" BodySource.noBody "" 0
      (HttpResponse.mk 401 "Digest nonce=\"n\"")
      (HttpResponse.mk 200 "")).1.map Request.method = ["GET", "GET"] :=
  (retry_preserves_method_uri "u" "p" "GET" "http://h/a" BodySource.noBody "" 0
    "Digest nonce=\"n\"" (HttpResponse.mk 200 "") (by decide) rfl).1

end Bscli
